import Mathlib

/-!
Verification of the SISTEMACHAMADOS helpdesk application.

The definitions below are a shallow embedding of the Python sources under
`tickets/` (wapi.py, utils.py, models.py, views.py).  Python JSON values are
modelled by the `Json` inductive, Python truthiness by `truthy`, and the
in-memory WAPI group cache by `GroupCache`.  Times are rationals standing for
`time.time()` values.
-/

/-- A JSON value as manipulated by the Python code (numbers restricted to
integers, which is all the claims need). -/
inductive Json where
  | null
  | bool (b : Bool)
  | num (n : Int)
  | str (s : String)
  | arr (elems : List Json)
  | obj (fields : List (String × Json))

/-- Python truthiness of a JSON value: `None`, `False`, `0`, the empty string,
the empty list and the empty dict are falsy, everything else is truthy. -/
def truthy : Json → Bool
  | .null => false
  | .bool b => b
  | .num n => n != 0
  | .str s => s != ""
  | .arr elems => !elems.isEmpty
  | .obj fields => !fields.isEmpty

/-- Python `dict.get(key)` (returning `None` for a missing key); on non-dicts
the sources only call `.get` after an `isinstance(…, dict)` check, so the
catch-all branch is never reached by the embedded code. -/
def Json.get : Json → String → Json
  | .obj fields, key =>
    match fields.find? (fun kv => kv.1 == key) with
    | some kv => kv.2
    | none => .null
  | _, _ => .null

/-- Python `a or b` on JSON values. -/
def pyOr (a b : Json) : Json :=
  if truthy a then a else b

/-- Python `json_value == some_string`: true exactly for an equal string. -/
def pyEqStr : Json → String → Bool
  | .str s, t => s == t
  | _, _ => false

/-- Iterating a JSON value with a Python `for` loop: lists yield their
elements, strings their one-character substrings, dicts their keys; `None`,
booleans and numbers raise `TypeError` (modelled as `Except.error`). -/
def iterElems : Json → Except Unit (List Json)
  | .arr elems => .ok elems
  | .str s => .ok (s.toList.map (fun c => .str (String.mk [c])))
  | .obj fields => .ok (fields.map (fun kv => .str kv.1))
  | .null => .error ()
  | .bool _ => .error ()
  | .num _ => .error ()

/-- One normalized group record produced by `_normalize_groups_payload`
(wapi.py lines 72-76): a dict with exactly the keys `id`, `name` and
`participantsCount`. -/
structure GroupRec where
  id : Json
  name : Json
  participantsCount : Json

/-- The body of the `for raw in groups` loop of `_normalize_groups_payload`
(wapi.py lines 66-76): non-dict entries and entries whose id candidates are
all falsy are dropped. -/
def normalizeEntry (raw : Json) : Option GroupRec :=
  match raw with
  | .obj _ =>
    let groupId := pyOr (raw.get "id") (pyOr (raw.get "jid") (raw.get "chatId"))
    if truthy groupId then
      some { id := groupId
             name := pyOr (raw.get "subject")
               (pyOr (raw.get "name") (pyOr (raw.get "title") (.str "Sem nome")))
             participantsCount := pyOr (raw.get "participantsCount")
               (pyOr (raw.get "participants") (raw.get "size")) }
    else
      none
  | _ => none

/-- The `result` binding of `_normalize_groups_payload` (wapi.py lines 57-59). -/
def resultField (payload : Json) : Json :=
  match payload with
  | .obj _ => pyOr (payload.get "result") (pyOr (payload.get "data") payload)
  | _ => payload

/-- The `groups` binding of `_normalize_groups_payload` (wapi.py lines 60-64). -/
def groupsField (payload : Json) : Json :=
  let result := resultField payload
  match result with
  | .obj _ =>
    pyOr (result.get "groups")
      (pyOr (result.get "chats") (pyOr (result.get "sessions") (.arr [])))
  | .arr _ => result
  | _ => .arr []

/-- Models `_normalize_groups_payload` (wapi.py lines 56-77); `Except.error` models
the `TypeError` raised when the selected groups value is not iterable. -/
def normalizeGroupsPayload (payload : Json) : Except Unit (List GroupRec) :=
  match iterElems (groupsField payload) with
  | .error e => .error e
  | .ok elems => .ok (elems.filterMap normalizeEntry)

/-- The module-level `_group_cache` dict (wapi.py line 20): `none` models a
missing key, the timestamp is a `time.time()` value. -/
structure GroupCache where
  groups : Option (List GroupRec)
  ts : Option ℚ

/-- Outcome of one `ensure_group_exists` call: the cache afterwards, whether
`list_wapi_groups` was called, and `Except.error` for a raised `ValueError`. -/
structure EnsureOutcome where
  cache : GroupCache
  refetched : Bool
  result : Except String Unit

/-- The membership check of `ensure_group_exists` (wapi.py lines 125-127). -/
def ensureCheck (cache : GroupCache) (refetched : Bool) (groups : List GroupRec)
    (groupId : String) : EnsureOutcome :=
  if groups.any (fun entry => pyEqStr entry.id groupId) then
    { cache := cache, refetched := refetched, result := .ok () }
  else
    { cache := cache, refetched := refetched,
      result := .error "Grupo não encontrado na sessão atual do WhatsApp." }

/-- The refetch condition of `ensure_group_exists` (wapi.py line 117):
`if not groups or not cached or now - cached > 30`, with Python truthiness of
the cached list and timestamp. -/
def cacheNeedsFetch (now : ℚ) (cache : GroupCache) : Bool :=
  match cache.groups, cache.ts with
  | some gs, some t => gs.isEmpty || t == 0 || decide (now - t > 30)
  | some _, none => true
  | none, _ => true

/-- Models `ensure_group_exists` (wapi.py lines 113-127).  `fetchResult` is what the
`list_wapi_groups(timeout=timeout)` call would produce (`Except.error` for a
raised `requests.RequestException`). -/
def ensureGroupExists (now : ℚ) (cache : GroupCache)
    (fetchResult : Except Unit (List GroupRec)) (groupId : String) : EnsureOutcome :=
  if cacheNeedsFetch now cache then
    match fetchResult with
    | .error _ =>
      { cache := cache, refetched := true,
        result := .error "Não foi possível validar o grupo (verifique a sessão do WAPI)." }
    | .ok gs =>
      ensureCheck { groups := some gs, ts := some now } true gs groupId
  else
    ensureCheck cache false (cache.groups.getD []) groupId

/-- A Django auth user as the views see it: `fullName` stands for the value of
`get_full_name()` and `groups` for the names of the user's groups. -/
structure UserM where
  username : String
  fullName : String
  email : String
  isStaff : Bool
  groups : List String
deriving DecidableEq

/-- The four declared ticket statuses (models.py `TicketStatus`, lines 11-15),
by stored value. -/
def ticketStatuses : List String := ["new", "in_progress", "awaiting", "resolved"]

/-- The five declared urgencies (models.py `TicketUrgency`, lines 18-23). -/
def ticketUrgencies : List String := ["low", "normal", "medium", "high", "urgent"]

/-- The four declared ticket types (models.py `TicketType`, lines 26-30). -/
def ticketTypes : List String := ["incident", "request", "improvement", "programado"]

/-- A `Ticket` row (models.py lines 33-56); `resolvedAt` is a `time`-like
rational, `none` modelling SQL NULL. -/
structure TicketM where
  id : Nat
  title : String
  description : String
  createdBy : UserM
  assignedTo : Option UserM
  ticketType : String
  status : String
  urgency : String
  resolution : Option String
  resolvedAt : Option ℚ
  workingUsers : List UserM
deriving DecidableEq

/-- Models `Ticket._format_user` on a present user (models.py lines 66-70):
`user.get_full_name() or user.username`. -/
def formatUserName (u : UserM) : String :=
  if u.fullName != "" then u.fullName else u.username

/-- Models `Ticket.get_working_user_names` (models.py lines 72-79). -/
def getWorkingUserNames (t : TicketM) : List String :=
  let names := t.workingUsers.map formatUserName
  if names.isEmpty then
    match t.assignedTo with
    | some u =>
      let primary := formatUserName u
      if primary != "" then [primary] else []
    | none => []
  else names

/-- Models `get_status_display()`: Django returns the declared label, or the raw
value for an undeclared one. -/
def statusDisplay (code : String) : String :=
  if code == "new" then "Novo"
  else if code == "in_progress" then "Em andamento"
  else if code == "awaiting" then "Aguardando resposta"
  else if code == "resolved" then "Resolvido"
  else code

/-- Models `get_urgency_display()` over the declared urgency labels. -/
def urgencyDisplay (code : String) : String :=
  if code == "low" then "Baixa"
  else if code == "normal" then "Normal"
  else if code == "medium" then "Média"
  else if code == "high" then "Alta"
  else if code == "urgent" then "Urgente"
  else code

/-- Models `get_ticket_type_display()` over the declared type labels. -/
def typeDisplay (code : String) : String :=
  if code == "incident" then "Incidente"
  else if code == "request" then "Solicitação"
  else if code == "improvement" then "Melhoria"
  else if code == "programado" then "Programado"
  else code

/-- The dict built by `serialize_ticket` (utils.py lines 9-27), with the
`created_at` timestamp left out (no claim mentions it). -/
structure SerializedTicket where
  id : Nat
  title : String
  status : String
  statusCode : String
  urgency : String
  urgencyCode : String
  createdBy : String
  assignedTo : Option String
  typeLabel : String
  typeCode : String
  responsibles : List String
  responsiblesDisplay : String
deriving DecidableEq

/-- Models `serialize_ticket` (utils.py lines 9-27). -/
def serializeTicket (t : TicketM) : SerializedTicket :=
  let responsibles := getWorkingUserNames t
  { id := t.id
    title := t.title
    status := statusDisplay t.status
    statusCode := t.status
    urgency := urgencyDisplay t.urgency
    urgencyCode := t.urgency
    createdBy := formatUserName t.createdBy
    assignedTo := t.assignedTo.map formatUserName
    typeLabel := typeDisplay t.ticketType
    typeCode := t.ticketType
    responsibles := responsibles
    responsiblesDisplay :=
      if responsibles.isEmpty then "—" else String.intercalate ", " responsibles }

/-- The outward side effects the views perform, in program order.  Free-text
description and body fields built with `textwrap.shorten` are left out; the
claims only inspect event types, channels and recipients. -/
inductive Effect where
  | ticketEvent (eventType : String) (status : Option String) (performedBy : Option UserM)
  | channelBroadcast (event : String) (ticket : SerializedTicket)
  | whatsappSend (destination : String)
  | emailSend (recipient : String) (subject : String)
deriving DecidableEq

/-- The default `WAPI_DEFAULT_GROUP_JID` setting (views.py line 45). -/
def tiChamadosGroupJid : String := "120363421981424263@g.us"

/-- Models `broadcast_ticket_event` (utils.py lines 30-41): a no-op when no channel
layer is configured, otherwise one `group_send` to the `tickets` group
carrying the serialized ticket. -/
def broadcastTicketEvent (channelLayer : Bool) (event : String) (t : TicketM) : List Effect :=
  if channelLayer then [.channelBroadcast event (serializeTicket t)] else []

/-- Outcome of the `send_whatsapp_message` call to the configured TI group
(wapi.py lines 142-166) as `_notify_whatsapp` observes it: a normal return
(`sent`), a raised `requests.RequestException` from the HTTP post or the
unexpected-status check (`requestError`), or a `ValueError` raised by
`ensure_group_exists` when the group lookup fails or the group is absent
(`groupValueError`). -/
inductive WapiSendOutcome where
  | sent
  | requestError
  | groupValueError
deriving DecidableEq

/-- Models `_notify_whatsapp` (views.py lines 393-398): one send attempt to
the configured TI group, with only `requests.RequestException` caught and
logged; a `ValueError` from `ensure_group_exists` is not caught and
propagates (the `Except.error` component). -/
def notifyWhatsapp (wapi : WapiSendOutcome) (_t : TicketM) :
    List Effect × Except Unit Unit :=
  match wapi with
  | .sent => ([.whatsappSend tiChamadosGroupJid], .ok ())
  | .requestError => ([], .ok ())
  | .groupValueError => ([], .error ())

/-- Models `_notify_ticket_email` (views.py lines 401-408): sends to the creator's
address when one exists, otherwise does nothing. -/
def notifyTicketEmail (t : TicketM) (subject : String) : List Effect :=
  if t.createdBy.email == "" then [] else [.emailSend t.createdBy.email subject]

/-- Models `_update_ticket_status` (views.py lines 132-178), returning the saved
ticket, the side effects actually performed in program order, and whether the
call returned normally or a `ValueError` from `_notify_whatsapp` escaped it
(in which case `_notify_ticket_email` never runs).  `channelLayer` says
whether a channel layer is configured; `wapi` is the outcome of the WhatsApp
send attempt; `now` models `timezone.now()`. -/
def updateTicketStatus (channelLayer : Bool) (wapi : WapiSendOutcome) (now : ℚ)
    (ticket : TicketM) (status : String) (assigned : Option UserM)
    (resolutionText : Option String) (performedBy : Option UserM) :
    TicketM × List Effect × Except Unit Unit :=
  let t1 := { ticket with status := status }
  let t2 := match assigned with
    | some u => { t1 with assignedTo := some u }
    | none => t1
  let t3 :=
    if status == "resolved" then
      { t2 with resolvedAt := some now
                resolution := match resolutionText with
                  | some s => if s != "" then some s else t2.resolution
                  | none => t2.resolution }
    else { t2 with resolvedAt := none }
  let eventEffect := Effect.ticketEvent "status_change" (some status) performedBy
  let t4 := match assigned with
    | some u =>
      if t3.workingUsers.contains u then t3
      else { t3 with workingUsers := t3.workingUsers ++ [u] }
    | none => t3
  let subject := "[Chamado #" ++ toString t4.id ++ "] Status atualizado"
  (t4,
    match notifyWhatsapp wapi t4 with
    | (wapiEffects, Except.ok _) =>
      (eventEffect
        :: (broadcastTicketEvent channelLayer "ticket_status_changed" t4
            ++ wapiEffects ++ notifyTicketEmail t4 subject),
       Except.ok ())
    | (wapiEffects, Except.error e) =>
      (eventEffect
        :: (broadcastTicketEvent channelLayer "ticket_status_changed" t4
            ++ wapiEffects),
       Except.error e))

/-- Models `_add_working_user` (views.py lines 411-420). -/
def addWorkingUser (t : TicketM) (user : Option UserM) : TicketM × List Effect :=
  match user with
  | none => (t, [])
  | some u =>
    if t.status == "resolved" then (t, [])
    else
      let t2 := if t.workingUsers.contains u then t
                else { t with workingUsers := t.workingUsers ++ [u] }
      (t2, [.ticketEvent "working_user" none (some u)])

/-- A ticket as saved by `create_ticket` (views.py lines 461-466): the form
exposes only title, description, urgency and ticket type, so the model
defaults apply to everything else (models.py lines 37-56). -/
def newTicket (id : Nat) (title description : String) (createdBy : UserM)
    (urgency ticketType : String) : TicketM :=
  { id := id
    title := title
    description := description
    createdBy := createdBy
    assignedTo := none
    ticketType := ticketType
    status := "new"
    urgency := urgency
    resolution := none
    resolvedAt := none
    workingUsers := [] }

/-- Models `_handle_ticket_action` (views.py lines 181-228), restricted to its effect
on the ticket itself: `none` when the handler leaves the ticket untouched
(no action, unauthorized action, invalid form, missing pause reason),
`some t` for the ticket written by the branch taken.  `action` is the posted
`action` value with `""` for an absent one, `resolutionValid` is
`resolution_form.is_valid()`, `pauseReason` the raw posted value. -/
def handleTicketAction (channelLayer : Bool) (wapi : WapiSendOutcome) (now : ℚ)
    (action : String) (isTiUser : Bool) (user : UserM) (t : TicketM)
    (resolutionValid : Bool) (resolutionText : String) (pauseReason : String) :
    Option TicketM :=
  if action == "" then none
  else if action == "resolve" && isTiUser then
    if resolutionValid then
      some (updateTicketStatus channelLayer wapi now t "resolved" none
        (some resolutionText) (some user)).1
    else none
  else if action == "in_progress" && isTiUser then
    some (updateTicketStatus channelLayer wapi now t "in_progress" (some user) none
      (some user)).1
  else if action == "awaiting" && isTiUser then
    if pauseReason.trim == "" then none
    else
      some (updateTicketStatus channelLayer wapi now t "awaiting" none none
        (some user)).1
  else if action == "reopen" && t.status == "resolved" then
    some (updateTicketStatus channelLayer wapi now t "in_progress" none none
      (some user)).1
  else if action == "join_work" && isTiUser then
    let assigned := t.assignedTo.getD user
    let t2 :=
      if t.status != "in_progress" then
        (updateTicketStatus channelLayer wapi now t "in_progress" (some assigned) none
          (some user)).1
      else t
    some (addWorkingUser t2 (some user)).1
  else none

/-- Models `_is_ti` (views.py lines 59-60). -/
def isTi (u : UserM) : Bool :=
  u.groups.contains "TI" || u.isStaff

/-- The permission gate of `manage_users` (views.py lines 638-641):
`Except.error` models a raised `PermissionDenied`. -/
def manageUsersGate (u : UserM) : Except Unit Unit :=
  if !(isTi u) then .error () else .ok ()

/-- The permission gate of `inventory_management` (views.py lines 682-685). -/
def inventoryManagementGate (u : UserM) : Except Unit Unit :=
  if !(isTi u) then .error () else .ok ()

/-- The permission gate of `ti_reports` (views.py lines 722-725). -/
def tiReportsGate (u : UserM) : Except Unit Unit :=
  if !(isTi u) then .error () else .ok ()

/-- The permission gate of `finished_tickets` (views.py lines 570-573). -/
def finishedTicketsGate (u : UserM) : Except Unit Unit :=
  if !(isTi u) then .error () else .ok ()

/-- The permission gate of `whatsapp_config` (views.py lines 243-246). -/
def whatsappConfigGate (u : UserM) : Except Unit Unit :=
  if !(isTi u) then .error () else .ok ()

/-- One count map of `ti_reports` (views.py lines 759-769): a dict seeded with
every declared key at 0, then overwritten per group-by row; a row whose key is
undeclared is appended.  Modelled as an association list: declared keys first,
then the undeclared values present in `vals`. -/
def countMap (keys : List String) (vals : List String) : List (String × Nat) :=
  keys.map (fun k => (k, vals.count k))
    ++ ((vals.dedup.filter (fun v => !keys.contains v)).map (fun k => (k, vals.count k)))

/-- The aggregate numbers computed by `ti_reports` over its filtered queryset
(views.py lines 756-769 and 834-836). -/
structure ReportSummary where
  statusCounts : List (String × Nat)
  urgencyCounts : List (String × Nat)
  typeCounts : List (String × Nat)
  totalTickets : Nat
  resolvedCount : Nat
  pendingCount : Nat

/-- The aggregation part of `ti_reports` applied to the filtered tickets:
`resolved_count = status_counts.get(RESOLVED, 0)` and
`pending_count = total_tickets - resolved_count` (views.py lines 834-836). -/
def tiReportsSummary (tickets : List TicketM) : ReportSummary :=
  let statusCounts := countMap ticketStatuses (tickets.map TicketM.status)
  let urgencyCounts := countMap ticketUrgencies (tickets.map TicketM.urgency)
  let typeCounts := countMap ticketTypes (tickets.map TicketM.ticketType)
  let totalTickets := tickets.length
  let resolvedCount := ((statusCounts.lookup "resolved").getD 0)
  { statusCounts := statusCounts
    urgencyCounts := urgencyCounts
    typeCounts := typeCounts
    totalTickets := totalTickets
    resolvedCount := resolvedCount
    pendingCount := totalTickets - resolvedCount }

/-- The codepoint ranges of the Unicode decimal-digit category Nd: exactly
the characters the Unicode-aware `\d` class of Python's `re` module keeps
when `re.sub` with `\D` strips a `str` (enumerated from CPython 3.11's regex
engine). -/
def ndRanges : List (Nat × Nat) :=
  [(48, 57), (1632, 1641), (1776, 1785), (1984, 1993), (2406, 2415),
   (2534, 2543), (2662, 2671), (2790, 2799), (2918, 2927), (3046, 3055),
   (3174, 3183), (3302, 3311), (3430, 3439), (3558, 3567), (3664, 3673),
   (3792, 3801), (3872, 3881), (4160, 4169), (4240, 4249), (6112, 6121),
   (6160, 6169), (6470, 6479), (6608, 6617), (6784, 6793), (6800, 6809),
   (6992, 7001), (7088, 7097), (7232, 7241), (7248, 7257), (42528, 42537),
   (43216, 43225), (43264, 43273), (43472, 43481), (43504, 43513),
   (43600, 43609), (44016, 44025), (65296, 65305), (66720, 66729),
   (68912, 68921), (69734, 69743), (69872, 69881), (69942, 69951),
   (70096, 70105), (70384, 70393), (70736, 70745), (70864, 70873),
   (71248, 71257), (71360, 71369), (71472, 71481), (71904, 71913),
   (72016, 72025), (72784, 72793), (73040, 73049), (73120, 73129),
   (92768, 92777), (92864, 92873), (93008, 93017), (120782, 120831),
   (123200, 123209), (123632, 123641), (125264, 125273), (130032, 130041)]

/-- Models the Unicode-aware `\d` character class of `re.sub(r'\D', '', …)`
(utils.py line 59): a character is kept exactly when its codepoint lies in a
Unicode Nd range. -/
def isRegexDigit (c : Char) : Bool :=
  ndRanges.any (fun r => decide (r.1 ≤ c.toNat ∧ c.toNat ≤ r.2))

/-- Models `normalize_phone_number` (utils.py lines 56-70); `Except.error` carries the
`ValueError` message; the digit strip is the Unicode-aware `re.sub(r'\D', '', value)`. -/
def normalizePhoneNumber (value : String) (defaultCountryCode : String := "55") :
    Except String String :=
  if value == "" then .error "Telefone não pode ficar vazio."
  else
    let digits0 := value.toList.filter isRegexDigit
    if digits0.isEmpty then .error "Telefone deve conter dígitos."
    else
      let digits1 := if digits0.take 2 == ['0', '0'] then digits0.drop 2 else digits0
      let digits2 :=
        if digits1.length == 10 || digits1.length == 11 then
          defaultCountryCode.toList ++ digits1
        else digits1
      if !(digits2.length == 12 || digits2.length == 13) then
        .error "Telefone precisa ter o código internacional (ex: 55149988208134)."
      else if !(defaultCountryCode.toList.isPrefixOf digits2) then
        .error "Telefone deve começar com o código internacional (ex: 55...)."
      else .ok (String.mk digits2)

/-- The digit string of `normalize_phone_number` after the leading-`00` strip
and the country-code prefixing, named for the claim statements. -/
def adjustedDigits (value : String) : List Char :=
  let digits0 := value.toList.filter isRegexDigit
  let digits1 := if digits0.take 2 == ['0', '0'] then digits0.drop 2 else digits0
  if digits1.length == 10 || digits1.length == 11 then "55".toList ++ digits1 else digits1

/-- A `WhatsAppRecipient` row (models.py lines 189-198). -/
structure RecipientM where
  name : String
  phoneNumber : String
  originalInput : String
deriving DecidableEq

/-- Models `WhatsAppRecipient.clean` (models.py lines 200-207), which
`WhatsAppRecipient.save` always runs via `full_clean` (lines 209-211);
`Except.error` models the raised `ValidationError`. -/
def whatsAppRecipientClean (r : RecipientM) : Except String RecipientM :=
  match normalizePhoneNumber r.phoneNumber with
  | .error e => .error e
  | .ok normalized =>
    .ok { r with originalInput := r.phoneNumber, phoneNumber := normalized }

/-- Counterexample for C2: a first call that caches an empty group list (say
every endpoint 404ed) is followed one second later — well within 30 seconds —
by a call that refetches anyway, because `if not groups` treats the cached
empty list like a missing cache. -/
theorem c2_group_cache_counterexample :
    (ensureGroupExists 1 ⟨none, none⟩ (.ok []) "g").cache = ⟨some [], some 1⟩ ∧
    (2 : ℚ) - 1 ≤ 30 ∧
    (ensureGroupExists 2 ⟨some [], some 1⟩ (.ok []) "g").refetched = true := by
  refine ⟨rfl, by norm_num, rfl⟩

/-- C2 (amended): the 30-second cache works as claimed only when the cached
list is non-empty and the cached timestamp non-zero; then a call at most 30
seconds after the timestamp answers from the cache without refetching, and a
call more than 30 seconds after it refetches and, when the fetch succeeds,
replaces the cache. -/
theorem c2_group_cache_amended (now t : ℚ) (gs : List GroupRec)
    (fetchResult : Except Unit (List GroupRec)) (groupId : String)
    (hgs : gs ≠ []) (ht : t ≠ 0) :
    (now - t ≤ 30 →
      (ensureGroupExists now ⟨some gs, some t⟩ fetchResult groupId).refetched = false ∧
      (ensureGroupExists now ⟨some gs, some t⟩ fetchResult groupId).cache = ⟨some gs, some t⟩ ∧
      ((ensureGroupExists now ⟨some gs, some t⟩ fetchResult groupId).result = .ok () ↔
        gs.any (fun entry => pyEqStr entry.id groupId) = true)) ∧
    (now - t > 30 →
      (ensureGroupExists now ⟨some gs, some t⟩ fetchResult groupId).refetched = true ∧
      ∀ gs2, fetchResult = .ok gs2 →
        (ensureGroupExists now ⟨some gs, some t⟩ fetchResult groupId).cache =
          ⟨some gs2, some now⟩) := by
  have hempty : gs.isEmpty = false := by
    cases gs with
    | nil => exact absurd rfl hgs
    | cons a as => rfl
  have htb : (t == 0) = false := by
    simpa using ht
  constructor
  · intro hle
    have hd : decide (now - t > 30) = false := decide_eq_false (not_lt.mpr hle)
    have hfetch : cacheNeedsFetch now ⟨some gs, some t⟩ = false := by
      simp [cacheNeedsFetch, hempty, htb, hd]
    unfold ensureGroupExists
    rw [hfetch]
    simp only [Bool.false_eq_true, if_false]
    by_cases hany : gs.any (fun entry => pyEqStr entry.id groupId) = true
    · simp [ensureCheck, hany]
    · simp [ensureCheck, hany]
  · intro hgt
    have hd : decide (now - t > 30) = true := decide_eq_true hgt
    have hfetch : cacheNeedsFetch now ⟨some gs, some t⟩ = true := by
      simp [cacheNeedsFetch, hd]
    unfold ensureGroupExists
    rw [hfetch]
    simp only [if_true]
    cases fetchResult with
    | error e =>
      refine ⟨rfl, ?_⟩
      intro gs2 h
      cases h
    | ok gsf =>
      refine ⟨?_, ?_⟩
      · simp only [ensureCheck]
        split <;> rfl
      · intro gs2 h
        cases h
        simp only [ensureCheck]
        split <;> rfl

/-- Witness for C2 (amended): with a one-group cache stamped at time 1, a call
at time 5 answers from the cache, and a call at time 40 refetches and stores
the newly fetched list with the new timestamp. -/
theorem c2_group_cache_amended_witness :
    ((ensureGroupExists 5 ⟨some [⟨.str "g", .str "Sem nome", .null⟩], some 1⟩
        (.ok []) "g").refetched = false ∧
      (ensureGroupExists 5 ⟨some [⟨.str "g", .str "Sem nome", .null⟩], some 1⟩
        (.ok []) "g").result = .ok ()) ∧
    ((ensureGroupExists 40 ⟨some [⟨.str "g", .str "Sem nome", .null⟩], some 1⟩
        (.ok []) "g").refetched = true ∧
      (ensureGroupExists 40 ⟨some [⟨.str "g", .str "Sem nome", .null⟩], some 1⟩
        (.ok []) "g").cache = ⟨some [], some 40⟩) := by
  have h5 := c2_group_cache_amended 5 1 [⟨.str "g", .str "Sem nome", .null⟩]
    (.ok []) "g" (by simp) (by norm_num)
  have h40 := c2_group_cache_amended 40 1 [⟨.str "g", .str "Sem nome", .null⟩]
    (.ok []) "g" (by simp) (by norm_num)
  have hle : (5 : ℚ) - 1 ≤ 30 := by norm_num
  have hgt : (40 : ℚ) - 1 > 30 := by norm_num
  refine ⟨⟨(h5.1 hle).1, ?_⟩, ⟨(h40.2 hgt).1, (h40.2 hgt).2 [] rfl⟩⟩
  exact ((h5.1 hle).2.2).mpr (by rfl)

/-- A record produced by the normalization loop always carries a truthy id:
the loop keeps an entry only when the id candidate chain is truthy. -/
lemma normalizeEntry_id_truthy (raw : Json) (g : GroupRec)
    (h : normalizeEntry raw = some g) : truthy g.id = true := by
  unfold normalizeEntry at h
  cases raw with
  | obj fields =>
    dsimp only at h
    split at h
    case isTrue htr =>
      cases h
      exact htr
    case isFalse => exact Option.noConfusion h
  | null => exact Option.noConfusion h
  | bool b => exact Option.noConfusion h
  | num n => exact Option.noConfusion h
  | str s => exact Option.noConfusion h
  | arr elems => exact Option.noConfusion h

/-- Counterexample for C3: the function is not total on dicts — a truthy
non-iterable `groups` value such as `{"groups": 5}` raises `TypeError` — and
the id is the first truthy, not the first present, candidate: an entry with a
present-but-empty `id` and a non-empty `jid` is kept with the `jid` value. -/
theorem c3_normalize_groups_counterexample :
    normalizeGroupsPayload (.obj [("groups", .num 5)]) = .error () ∧
    normalizeGroupsPayload (.arr [.obj [("id", .str ""), ("jid", .str "x")]]) =
      .ok [⟨.str "x", .str "Sem nome", .null⟩] :=
  ⟨rfl, rfl⟩

/-- C3 (amended): `_normalize_groups_payload` raises exactly when the selected
groups value is a truthy non-iterable (a number, boolean or null), and on
success every record has a truthy id, the id being the first truthy of the raw
entry's id/jid/chatId; the name defaults to "Sem nome" when subject/name/title
are all absent, and raw entries that are not dicts or whose id candidates are
all falsy are dropped. -/
theorem c3_normalize_groups_amended :
    (∀ payload : Json,
      normalizeGroupsPayload payload = .error () ↔
        ((∃ n, groupsField payload = .num n) ∨ (∃ b, groupsField payload = .bool b) ∨
          groupsField payload = .null)) ∧
    (∀ (payload : Json) (gs : List GroupRec) (g : GroupRec),
      normalizeGroupsPayload payload = .ok gs → g ∈ gs → truthy g.id = true) ∧
    (∀ (raw : Json) (g : GroupRec), normalizeEntry raw = some g →
      g.id = pyOr (raw.get "id") (pyOr (raw.get "jid") (raw.get "chatId")) ∧
      (raw.get "subject" = .null → raw.get "name" = .null → raw.get "title" = .null →
        g.name = .str "Sem nome")) ∧
    (∀ raw : Json, (∀ kvs, raw ≠ .obj kvs) → normalizeEntry raw = none) ∧
    (∀ raw : Json,
      truthy (pyOr (raw.get "id") (pyOr (raw.get "jid") (raw.get "chatId"))) = false →
      normalizeEntry raw = none) := by
  refine ⟨?_, ?_, ?_, ?_, ?_⟩
  · intro payload
    unfold normalizeGroupsPayload
    cases hg : groupsField payload <;> simp [iterElems]
  · intro payload gs g hok hmem
    unfold normalizeGroupsPayload at hok
    cases hi : iterElems (groupsField payload) with
    | error e => rw [hi] at hok; exact Except.noConfusion hok
    | ok elems =>
      rw [hi] at hok
      dsimp only at hok
      cases hok
      obtain ⟨raw, -, hraw⟩ := List.mem_filterMap.mp hmem
      exact normalizeEntry_id_truthy raw g hraw
  · intro raw g h
    unfold normalizeEntry at h
    cases raw with
    | obj fields =>
      dsimp only at h
      split at h
      case isTrue htr =>
        cases h
        refine ⟨rfl, ?_⟩
        intro hs hn ht2
        simp [hs, hn, ht2, pyOr, truthy]
      case isFalse => exact Option.noConfusion h
    | null => exact Option.noConfusion h
    | bool b => exact Option.noConfusion h
    | num n => exact Option.noConfusion h
    | str s => exact Option.noConfusion h
    | arr elems => exact Option.noConfusion h
  · intro raw hnot
    cases raw with
    | obj fields => exact absurd rfl (hnot fields)
    | null => rfl
    | bool b => rfl
    | num n => rfl
    | str s => rfl
    | arr elems => rfl
  · intro raw hfalsy
    unfold normalizeEntry
    cases raw with
    | obj fields =>
      dsimp only
      rw [if_neg (by simp [hfalsy])]
    | null => rfl
    | bool b => rfl
    | num n => rfl
    | str s => rfl
    | arr elems => rfl

/-- Witness for C3 (amended): concrete payloads exercising every conjunct —
a truthy boolean groups value raises, a kept record has a truthy id, missing
subject/name/title default to "Sem nome", a non-dict entry is dropped, and an
entry without any truthy id candidate is dropped. -/
theorem c3_normalize_groups_amended_witness :
    normalizeGroupsPayload (.obj [("groups", .bool true)]) = .error () ∧
    truthy (GroupRec.mk (.str "a") (.str "Sem nome") .null).id = true ∧
    (GroupRec.mk (.str "a") (.str "Sem nome") .null).name = .str "Sem nome" ∧
    normalizeEntry (.num 3) = none ∧
    normalizeEntry (.obj [("chatId", .str "")]) = none := by
  refine ⟨?_, ?_, ?_, ?_, ?_⟩
  · exact (c3_normalize_groups_amended.1 (.obj [("groups", .bool true)])).mpr
      (Or.inr (Or.inl ⟨true, rfl⟩))
  · exact c3_normalize_groups_amended.2.1 (.arr [.obj [("id", .str "a")]])
      [⟨.str "a", .str "Sem nome", .null⟩] ⟨.str "a", .str "Sem nome", .null⟩
      rfl (by simp)
  · exact (c3_normalize_groups_amended.2.2.1 (.obj [("id", .str "a")])
      ⟨.str "a", .str "Sem nome", .null⟩ rfl).2 rfl rfl rfl
  · exact c3_normalize_groups_amended.2.2.2.1 (.num 3) (fun kvs h => Json.noConfusion h)
  · exact c3_normalize_groups_amended.2.2.2.2 (.obj [("chatId", .str "")]) rfl

/-- A status update never changes the ticket id or creator and always writes
the requested status. -/
lemma updateTicketStatus_fields (channelLayer : Bool) (wapi : WapiSendOutcome)
    (now : ℚ) (t : TicketM) (status : String) (assigned : Option UserM)
    (resolutionText : Option String) (performedBy : Option UserM) :
    (updateTicketStatus channelLayer wapi now t status assigned resolutionText
        performedBy).1.id = t.id ∧
    (updateTicketStatus channelLayer wapi now t status assigned resolutionText
        performedBy).1.createdBy = t.createdBy ∧
    (updateTicketStatus channelLayer wapi now t status assigned resolutionText
        performedBy).1.status = status := by
  unfold updateTicketStatus
  cases assigned <;> dsimp only <;> (repeat' split) <;> simp_all

/-- The outcome of a status update whose WhatsApp send returns normally: the
status-change event, the broadcast, the send, then the conditional creator
email, and a normal return. -/
lemma updateTicketStatus_effects_sent (channelLayer : Bool) (now : ℚ) (t : TicketM)
    (status : String) (assigned : Option UserM) (resolutionText : Option String)
    (performedBy : Option UserM) :
    (updateTicketStatus channelLayer .sent now t status assigned resolutionText
        performedBy).2 =
      (Effect.ticketEvent "status_change" (some status) performedBy ::
        (broadcastTicketEvent channelLayer "ticket_status_changed"
            (updateTicketStatus channelLayer .sent now t status assigned resolutionText
              performedBy).1
          ++ [Effect.whatsappSend tiChamadosGroupJid]
          ++ notifyTicketEmail
            (updateTicketStatus channelLayer .sent now t status assigned resolutionText
              performedBy).1
            ("[Chamado #"
              ++ toString
                (updateTicketStatus channelLayer .sent now t status assigned
                  resolutionText performedBy).1.id
              ++ "] Status atualizado")),
       Except.ok ()) := rfl

/-- The outcome of a status update whose WhatsApp send raises a request
error: the exception is swallowed, no message is delivered, and the creator
email still follows. -/
lemma updateTicketStatus_effects_requestError (channelLayer : Bool) (now : ℚ)
    (t : TicketM) (status : String) (assigned : Option UserM)
    (resolutionText : Option String) (performedBy : Option UserM) :
    (updateTicketStatus channelLayer .requestError now t status assigned resolutionText
        performedBy).2 =
      (Effect.ticketEvent "status_change" (some status) performedBy ::
        (broadcastTicketEvent channelLayer "ticket_status_changed"
            (updateTicketStatus channelLayer .requestError now t status assigned
              resolutionText performedBy).1
          ++ []
          ++ notifyTicketEmail
            (updateTicketStatus channelLayer .requestError now t status assigned
              resolutionText performedBy).1
            ("[Chamado #"
              ++ toString
                (updateTicketStatus channelLayer .requestError now t status assigned
                  resolutionText performedBy).1.id
              ++ "] Status atualizado")),
       Except.ok ()) := rfl

/-- The outcome of a status update whose WhatsApp group validation raises a
`ValueError`: the update stops after the broadcast and the error escapes, so
neither the send nor the creator email happens. -/
lemma updateTicketStatus_effects_groupValueError (channelLayer : Bool) (now : ℚ)
    (t : TicketM) (status : String) (assigned : Option UserM)
    (resolutionText : Option String) (performedBy : Option UserM) :
    (updateTicketStatus channelLayer .groupValueError now t status assigned
        resolutionText performedBy).2 =
      (Effect.ticketEvent "status_change" (some status) performedBy ::
        (broadcastTicketEvent channelLayer "ticket_status_changed"
            (updateTicketStatus channelLayer .groupValueError now t status assigned
              resolutionText performedBy).1
          ++ []),
       Except.error ()) := rfl

/-- Counterexample for C4: when the WhatsApp group validation raises a
`ValueError` (for example every group endpoint is unreachable, so
`ensure_group_exists` finds no group), a status update of a ticket whose
creator does have an email address performs only the event record and the
broadcast — no WhatsApp message and no creator email — and the error escapes
`_update_ticket_status`. -/
theorem c4_status_change_counterexample :
    (updateTicketStatus true .groupValueError 0
        (newTicket 1 "T" "D" ⟨"ana", "Ana", "ana@x", false, []⟩ "normal" "incident")
        "in_progress" none none none).2.2 = .error () ∧
    (updateTicketStatus true .groupValueError 0
        (newTicket 1 "T" "D" ⟨"ana", "Ana", "ana@x", false, []⟩ "normal" "incident")
        "in_progress" none none none).2.1 =
      [Effect.ticketEvent "status_change" (some "in_progress") none,
       Effect.channelBroadcast "ticket_status_changed"
         (serializeTicket
           (updateTicketStatus true .groupValueError 0
             (newTicket 1 "T" "D" ⟨"ana", "Ana", "ana@x", false, []⟩ "normal" "incident")
             "in_progress" none none none).1)] ∧
    (newTicket 1 "T" "D" ⟨"ana", "Ana", "ana@x", false, []⟩ "normal"
        "incident").createdBy.email ≠ "" := by
  refine ⟨rfl, rfl, by decide⟩

/-- C4 (amended): every status change through `_update_ticket_status` records
a `status_change` ticket event and broadcasts a `ticket_status_changed` event
carrying the serialized ticket (when a channel layer is configured); when the
WhatsApp send returns normally the notification goes to the configured TI
group and the creator email follows when an address exists; a request error
in the send is swallowed and the creator email is still sent; but a
`ValueError` from the WhatsApp group validation escapes, so neither the
notification nor the email happens. -/
theorem c4_status_change_propagates_amended (channelLayer : Bool)
    (wapi : WapiSendOutcome) (now : ℚ) (t : TicketM) (status : String)
    (assigned : Option UserM) (resolutionText : Option String)
    (performedBy : Option UserM) (hcl : channelLayer = true) :
    Effect.ticketEvent "status_change" (some status) performedBy ∈
      (updateTicketStatus channelLayer wapi now t status assigned resolutionText
        performedBy).2.1 ∧
    Effect.channelBroadcast "ticket_status_changed"
        (serializeTicket
          (updateTicketStatus channelLayer wapi now t status assigned resolutionText
            performedBy).1) ∈
      (updateTicketStatus channelLayer wapi now t status assigned resolutionText
        performedBy).2.1 ∧
    (wapi = .sent →
      Effect.whatsappSend tiChamadosGroupJid ∈
        (updateTicketStatus channelLayer wapi now t status assigned resolutionText
          performedBy).2.1 ∧
      (t.createdBy.email ≠ "" →
        Effect.emailSend t.createdBy.email
            ("[Chamado #" ++ toString t.id ++ "] Status atualizado") ∈
          (updateTicketStatus channelLayer wapi now t status assigned resolutionText
            performedBy).2.1)) ∧
    (wapi = .requestError →
      (updateTicketStatus channelLayer wapi now t status assigned resolutionText
          performedBy).2.2 = .ok () ∧
      Effect.whatsappSend tiChamadosGroupJid ∉
        (updateTicketStatus channelLayer wapi now t status assigned resolutionText
          performedBy).2.1 ∧
      (t.createdBy.email ≠ "" →
        Effect.emailSend t.createdBy.email
            ("[Chamado #" ++ toString t.id ++ "] Status atualizado") ∈
          (updateTicketStatus channelLayer wapi now t status assigned resolutionText
            performedBy).2.1)) ∧
    (wapi = .groupValueError →
      (updateTicketStatus channelLayer wapi now t status assigned resolutionText
          performedBy).2.2 = .error () ∧
      Effect.whatsappSend tiChamadosGroupJid ∉
        (updateTicketStatus channelLayer wapi now t status assigned resolutionText
          performedBy).2.1 ∧
      ∀ recipient subject, Effect.emailSend recipient subject ∉
        (updateTicketStatus channelLayer wapi now t status assigned resolutionText
          performedBy).2.1) := by
  subst hcl
  obtain ⟨hid, hcreated, -⟩ :=
    updateTicketStatus_fields true wapi now t status assigned resolutionText performedBy
  refine ⟨?_, ?_, ?_, ?_, ?_⟩
  · cases wapi
    · rw [updateTicketStatus_effects_sent]
      exact List.mem_cons_self _ _
    · rw [updateTicketStatus_effects_requestError]
      exact List.mem_cons_self _ _
    · rw [updateTicketStatus_effects_groupValueError]
      exact List.mem_cons_self _ _
  · cases wapi
    · rw [updateTicketStatus_effects_sent]
      simp [broadcastTicketEvent]
    · rw [updateTicketStatus_effects_requestError]
      simp [broadcastTicketEvent]
    · rw [updateTicketStatus_effects_groupValueError]
      simp [broadcastTicketEvent]
  · intro hw
    subst hw
    rw [updateTicketStatus_effects_sent]
    constructor
    · simp [broadcastTicketEvent]
    · intro hmail
      simp [broadcastTicketEvent, notifyTicketEmail, hid, hcreated, hmail]
  · intro hw
    subst hw
    rw [updateTicketStatus_effects_requestError]
    refine ⟨rfl, ?_, ?_⟩
    · by_cases hmail : (updateTicketStatus true .requestError now t status assigned
          resolutionText performedBy).1.createdBy.email = "" <;>
        simp [broadcastTicketEvent, notifyTicketEmail, hmail]
    · intro hmail
      simp [broadcastTicketEvent, notifyTicketEmail, hid, hcreated, hmail]
  · intro hw
    subst hw
    rw [updateTicketStatus_effects_groupValueError]
    refine ⟨rfl, ?_, ?_⟩
    · simp [broadcastTicketEvent]
    · intro recipient subject
      simp [broadcastTicketEvent]

/-- Witness for C4 (amended): on a concrete in-progress update with a normal
WhatsApp send, the event, the broadcast, the send and the creator email all
happen; on the same update with a request error, the email still happens. -/
theorem c4_status_change_propagates_amended_witness :
    Effect.ticketEvent "status_change" (some "in_progress") none ∈
      (updateTicketStatus true .sent 0
        (newTicket 1 "T" "D" ⟨"ana", "Ana", "ana@x", false, []⟩ "normal" "incident")
        "in_progress" none none none).2.1 ∧
    Effect.channelBroadcast "ticket_status_changed"
        (serializeTicket
          (updateTicketStatus true .sent 0
            (newTicket 1 "T" "D" ⟨"ana", "Ana", "ana@x", false, []⟩ "normal" "incident")
            "in_progress" none none none).1) ∈
      (updateTicketStatus true .sent 0
        (newTicket 1 "T" "D" ⟨"ana", "Ana", "ana@x", false, []⟩ "normal" "incident")
        "in_progress" none none none).2.1 ∧
    Effect.whatsappSend "120363421981424263@g.us" ∈
      (updateTicketStatus true .sent 0
        (newTicket 1 "T" "D" ⟨"ana", "Ana", "ana@x", false, []⟩ "normal" "incident")
        "in_progress" none none none).2.1 ∧
    Effect.emailSend "ana@x" "[Chamado #1] Status atualizado" ∈
      (updateTicketStatus true .sent 0
        (newTicket 1 "T" "D" ⟨"ana", "Ana", "ana@x", false, []⟩ "normal" "incident")
        "in_progress" none none none).2.1 ∧
    Effect.emailSend "ana@x" "[Chamado #1] Status atualizado" ∈
      (updateTicketStatus true .requestError 0
        (newTicket 1 "T" "D" ⟨"ana", "Ana", "ana@x", false, []⟩ "normal" "incident")
        "in_progress" none none none).2.1 := by
  have hs := c4_status_change_propagates_amended true .sent 0
    (newTicket 1 "T" "D" ⟨"ana", "Ana", "ana@x", false, []⟩ "normal" "incident")
    "in_progress" none none none rfl
  have hr := c4_status_change_propagates_amended true .requestError 0
    (newTicket 1 "T" "D" ⟨"ana", "Ana", "ana@x", false, []⟩ "normal" "incident")
    "in_progress" none none none rfl
  exact ⟨hs.1, hs.2.1, (hs.2.2.1 rfl).1, (hs.2.2.1 rfl).2 (by decide),
    (hr.2.2.2.1 rfl).2.2 (by decide)⟩

/-- C10: after any call to `_update_ticket_status` the ticket's status is the
requested one and `resolved_at` is non-null exactly when that status is
`resolved`; resolving stamps `resolved_at` with the current time and keeps the
prior resolution text when no new text is given, and any other status clears
`resolved_at`. -/
theorem c10_resolved_at_iff_resolved (channelLayer : Bool) (wapi : WapiSendOutcome)
    (now : ℚ) (t : TicketM) (status : String) (assigned : Option UserM)
    (resolutionText : Option String) (performedBy : Option UserM) :
    ((updateTicketStatus channelLayer wapi now t status assigned resolutionText
        performedBy).1.status = status) ∧
    ((updateTicketStatus channelLayer wapi now t status assigned resolutionText
        performedBy).1.resolvedAt.isSome = true ↔ status = "resolved") ∧
    (status = "resolved" →
      (updateTicketStatus channelLayer wapi now t status assigned resolutionText
          performedBy).1.resolvedAt = some now ∧
      ((resolutionText = none ∨ resolutionText = some "") →
        (updateTicketStatus channelLayer wapi now t status assigned resolutionText
            performedBy).1.resolution = t.resolution)) ∧
    (status ≠ "resolved" →
      (updateTicketStatus channelLayer wapi now t status assigned resolutionText
          performedBy).1.resolvedAt = none) := by
  unfold updateTicketStatus
  cases assigned <;> dsimp only <;> (repeat' split) <;> simp_all

/-- Witness for C10: resolving a concrete ticket with no new resolution text
stamps the timestamp and keeps the old resolution; moving it to awaiting
clears the timestamp. -/
theorem c10_resolved_at_iff_resolved_witness :
    ((updateTicketStatus true .sent 7
        { newTicket 1 "T" "D" ⟨"ana", "Ana", "", false, []⟩ "normal" "incident" with
            resolution := some "old" }
        "resolved" none none none).1.resolvedAt = some 7 ∧
      (updateTicketStatus true .sent 7
        { newTicket 1 "T" "D" ⟨"ana", "Ana", "", false, []⟩ "normal" "incident" with
            resolution := some "old" }
        "resolved" none none none).1.resolution = some "old") ∧
    (updateTicketStatus true .sent 7
        { newTicket 1 "T" "D" ⟨"ana", "Ana", "", false, []⟩ "normal" "incident" with
            resolution := some "old" }
        "awaiting" none none none).1.resolvedAt = none := by
  have hres := c10_resolved_at_iff_resolved true .sent 7
    { newTicket 1 "T" "D" ⟨"ana", "Ana", "", false, []⟩ "normal" "incident" with
        resolution := some "old" }
    "resolved" none none none
  have hwait := c10_resolved_at_iff_resolved true .sent 7
    { newTicket 1 "T" "D" ⟨"ana", "Ana", "", false, []⟩ "normal" "incident" with
        resolution := some "old" }
    "awaiting" none none none
  exact ⟨⟨(hres.2.2.1 rfl).1, (hres.2.2.1 rfl).2 (Or.inl rfl)⟩,
    hwait.2.2.2 (by decide)⟩

/-- Counterexample for C6: a status update that assigns an owner does insert
that owner into the working-users set — here an in-progress update assigning
the user ana leaves ana in `working_users` afterwards. -/
theorem c6_working_users_counterexample :
    (⟨"ana", "Ana", "", false, []⟩ : UserM) ∈
      (updateTicketStatus true .sent 0
        (newTicket 1 "T" "D" ⟨"bob", "", "", false, []⟩ "normal" "incident")
        "in_progress" (some ⟨"ana", "Ana", "", false, []⟩) none
        (some ⟨"ana", "Ana", "", false, []⟩)).1.workingUsers := by
  have h : (updateTicketStatus true .sent 0
      (newTicket 1 "T" "D" ⟨"bob", "", "", false, []⟩ "normal" "incident")
      "in_progress" (some ⟨"ana", "Ana", "", false, []⟩) none
      (some ⟨"ana", "Ana", "", false, []⟩)).1.workingUsers
      = [⟨"ana", "Ana", "", false, []⟩] := rfl
  rw [h]
  exact List.mem_singleton.mpr rfl

/-- C6 (amended): the working-users set is maintained by the separate
`_add_working_user` operation, which never touches the `assigned_to` owner;
but a status update that assigns an owner also inserts that owner into the
working-users set, while one that assigns nobody leaves the set unchanged. -/
theorem c6_working_users_amended (channelLayer : Bool) (wapi : WapiSendOutcome)
    (now : ℚ) (t : TicketM) (status : String) (u : UserM)
    (resolutionText : Option String) (performedBy : Option UserM) :
    (u ∈ (updateTicketStatus channelLayer wapi now t status (some u) resolutionText
        performedBy).1.workingUsers) ∧
    ((updateTicketStatus channelLayer wapi now t status none resolutionText
        performedBy).1.workingUsers = t.workingUsers) ∧
    (∀ v : Option UserM, (addWorkingUser t v).1.assignedTo = t.assignedTo) ∧
    (t.status ≠ "resolved" → u ∈ (addWorkingUser t (some u)).1.workingUsers) := by
  refine ⟨?_, ?_, ?_, ?_⟩
  · unfold updateTicketStatus
    dsimp only
    (repeat' split) <;> simp_all
  · unfold updateTicketStatus
    dsimp only
    split <;> rfl
  · intro v
    unfold addWorkingUser
    cases v with
    | none => rfl
    | some w =>
      dsimp only
      (repeat' split) <;> rfl
  · intro hst
    unfold addWorkingUser
    dsimp only
    rw [if_neg (by simpa using hst)]
    dsimp only
    split <;> simp_all

/-- Witness for C6 (amended): with a fresh unresolved ticket and the concrete
user ana, joining the work through `_add_working_user` records ana and leaves
the owner untouched. -/
theorem c6_working_users_amended_witness :
    ((⟨"ana", "Ana", "", false, []⟩ : UserM) ∈
      (updateTicketStatus true .sent 0
        (newTicket 2 "T" "D" ⟨"bob", "", "", false, []⟩ "normal" "incident")
        "in_progress" (some ⟨"ana", "Ana", "", false, []⟩) none none).1.workingUsers) ∧
    ((addWorkingUser
        (newTicket 2 "T" "D" ⟨"bob", "", "", false, []⟩ "normal" "incident")
        (some ⟨"ana", "Ana", "", false, []⟩)).1.assignedTo = none) ∧
    ((⟨"ana", "Ana", "", false, []⟩ : UserM) ∈
      (addWorkingUser
        (newTicket 2 "T" "D" ⟨"bob", "", "", false, []⟩ "normal" "incident")
        (some ⟨"ana", "Ana", "", false, []⟩)).1.workingUsers) := by
  have h := c6_working_users_amended true .sent 0
    (newTicket 2 "T" "D" ⟨"bob", "", "", false, []⟩ "normal" "incident")
    "in_progress" ⟨"ana", "Ana", "", false, []⟩ none none
  exact ⟨h.1, h.2.2.1 (some ⟨"ana", "Ana", "", false, []⟩), h.2.2.2 (by decide)⟩

/-- C5: membership in the group named TI grants access to the
user-management, inventory-management, reports, finished-tickets and
WhatsApp-configuration views, and a user neither in that group nor staff is
denied by every one of them. -/
theorem c5_ti_group_grants_access (u : UserM) :
    (u.groups.contains "TI" = true →
      manageUsersGate u = .ok () ∧ inventoryManagementGate u = .ok () ∧
      tiReportsGate u = .ok () ∧ finishedTicketsGate u = .ok () ∧
      whatsappConfigGate u = .ok ()) ∧
    (u.groups.contains "TI" = false → u.isStaff = false →
      manageUsersGate u = .error () ∧ inventoryManagementGate u = .error () ∧
      tiReportsGate u = .error () ∧ finishedTicketsGate u = .error () ∧
      whatsappConfigGate u = .error ()) := by
  constructor
  · intro h
    have hti : isTi u = true := by
      have : "TI" ∈ u.groups := by simpa using h
      simp [isTi, this]
    simp [manageUsersGate, inventoryManagementGate, tiReportsGate,
      finishedTicketsGate, whatsappConfigGate, hti]
  · intro h hs
    have hti : isTi u = false := by
      have : "TI" ∉ u.groups := by simpa using h
      simp [isTi, this, hs]
    simp [manageUsersGate, inventoryManagementGate, tiReportsGate,
      finishedTicketsGate, whatsappConfigGate, hti]

/-- Witness for C5: a concrete TI member passes all five gates and a concrete
plain user is denied by all five. -/
theorem c5_ti_group_grants_access_witness :
    (manageUsersGate ⟨"tec", "Tec", "", false, ["TI"]⟩ = .ok () ∧
      inventoryManagementGate ⟨"tec", "Tec", "", false, ["TI"]⟩ = .ok () ∧
      tiReportsGate ⟨"tec", "Tec", "", false, ["TI"]⟩ = .ok () ∧
      finishedTicketsGate ⟨"tec", "Tec", "", false, ["TI"]⟩ = .ok () ∧
      whatsappConfigGate ⟨"tec", "Tec", "", false, ["TI"]⟩ = .ok ()) ∧
    (manageUsersGate ⟨"emp", "Emp", "", false, ["RH"]⟩ = .error () ∧
      inventoryManagementGate ⟨"emp", "Emp", "", false, ["RH"]⟩ = .error () ∧
      tiReportsGate ⟨"emp", "Emp", "", false, ["RH"]⟩ = .error () ∧
      finishedTicketsGate ⟨"emp", "Emp", "", false, ["RH"]⟩ = .error () ∧
      whatsappConfigGate ⟨"emp", "Emp", "", false, ["RH"]⟩ = .error ()) :=
  ⟨(c5_ti_group_grants_access ⟨"tec", "Tec", "", false, ["TI"]⟩).1 (by decide),
   (c5_ti_group_grants_access ⟨"emp", "Emp", "", false, ["RH"]⟩).2 (by decide) rfl⟩

/-- A status update writes exactly the requested status. -/
lemma updateTicketStatus_status (channelLayer : Bool) (wapi : WapiSendOutcome)
    (now : ℚ) (t : TicketM) (status : String) (assigned : Option UserM)
    (resolutionText : Option String) (performedBy : Option UserM) :
    (updateTicketStatus channelLayer wapi now t status assigned resolutionText
      performedBy).1.status = status :=
  (updateTicketStatus_fields channelLayer wapi now t status assigned resolutionText
    performedBy).2.2

/-- Joining the working users never changes the ticket status. -/
lemma addWorkingUser_status (t : TicketM) (v : Option UserM) :
    (addWorkingUser t v).1.status = t.status := by
  unfold addWorkingUser
  cases v with
  | none => rfl
  | some w =>
    dsimp only
    (repeat' split) <;> rfl

/-- C7: a freshly created ticket has status `new`, and every ticket the
action handler writes has one of the four declared statuses, provided the
ticket it started from did. -/
theorem c7_status_closed (channelLayer : Bool) (wapi : WapiSendOutcome) (now : ℚ)
    (action : String) (isTiUser : Bool) (user : UserM) (t : TicketM)
    (resolutionValid : Bool) (resolutionText pauseReason : String) (id : Nat)
    (title description : String) (createdBy : UserM) (urgency ticketType : String)
    (ht : t.status ∈ ticketStatuses) :
    (newTicket id title description createdBy urgency ticketType).status = "new" ∧
    "new" ∈ ticketStatuses ∧
    ∀ t2, handleTicketAction channelLayer wapi now action isTiUser user t
        resolutionValid resolutionText pauseReason = some t2 →
      t2.status ∈ ticketStatuses := by
  refine ⟨rfl, by decide, ?_⟩
  intro t2 h
  unfold handleTicketAction at h
  repeat' split at h
  all_goals
    first
    | exact Option.noConfusion h
    | (cases h
       first
       | (rw [updateTicketStatus_status]; decide)
       | (rw [addWorkingUser_status, updateTicketStatus_status]; decide)
       | (rw [addWorkingUser_status]; exact ht))

/-- Witness for C7: resolving a fresh ticket through the handler yields the
declared status `resolved`. -/
theorem c7_status_closed_witness :
    (newTicket 3 "T" "D" ⟨"bob", "", "", false, []⟩ "normal" "incident").status = "new" ∧
    (updateTicketStatus true .sent 0
      (newTicket 3 "T" "D" ⟨"bob", "", "", false, []⟩ "normal" "incident")
      "resolved" none (some "fix") (some ⟨"ana", "", "", false, []⟩)).1.status ∈
      ticketStatuses := by
  have h := c7_status_closed true .sent 0 "resolve" true ⟨"ana", "", "", false, []⟩
    (newTicket 3 "T" "D" ⟨"bob", "", "", false, []⟩ "normal" "incident") true "fix" ""
    3 "T" "D" ⟨"bob", "", "", false, []⟩ "normal" "incident" (by decide)
  exact ⟨h.1, h.2.2 _ rfl⟩

/-- Every declared key appears in its count map with the exact number of
matching values. -/
lemma countMap_mem_of_mem_keys (keys vals : List String) (k : String)
    (hk : k ∈ keys) : (k, vals.count k) ∈ countMap keys vals :=
  List.mem_append_left _ (List.mem_map.mpr ⟨k, hk, rfl⟩)

/-- The counts in a count map add up to the number of counted values: the
declared keys and the appended undeclared ones partition the values. -/
lemma sum_countMap (keys vals : List String) (hk : keys.Nodup) :
    ((countMap keys vals).map Prod.snd).sum = vals.length := by
  classical
  have hmap : (countMap keys vals).map Prod.snd =
      (keys ++ vals.dedup.filter (fun v => !keys.contains v)).map
        (fun k => vals.count k) := by
    simp [countMap, Function.comp_def]
  rw [hmap]
  have hnodup : (keys ++ vals.dedup.filter (fun v => !keys.contains v)).Nodup := by
    rw [List.nodup_append]
    refine ⟨hk, (vals.nodup_dedup).filter _, ?_⟩
    intro a ha hae
    have hcond := (List.mem_filter.mp hae).2
    simp at hcond
    exact hcond ha
  rw [← List.sum_toFinset _ hnodup]
  have hsub : vals.toFinset ⊆
      (keys ++ vals.dedup.filter (fun v => !keys.contains v)).toFinset := by
    intro x hx
    rw [List.mem_toFinset] at hx
    rw [List.mem_toFinset, List.mem_append]
    by_cases hxk : x ∈ keys
    · exact Or.inl hxk
    · exact Or.inr (List.mem_filter.mpr ⟨List.mem_dedup.mpr hx, by simp [hxk]⟩)
  have hzero : ∀ x ∈ (keys ++ vals.dedup.filter (fun v => !keys.contains v)).toFinset,
      x ∉ vals.toFinset → vals.count x = 0 := by
    intro x _ hx
    rw [List.mem_toFinset] at hx
    exact List.count_eq_zero.mpr hx
  rw [← Finset.sum_subset hsub hzero]
  exact List.sum_toFinset_count_eq_length vals

/-- C8: every declared status, urgency and type key appears in its count map
with the exact count of matching tickets (0 when none match), the per-status
counts sum to the total ticket count, and the pending count is the total minus
the resolved count. -/
theorem c8_reports_aggregation (tickets : List TicketM) :
    (∀ k ∈ ticketStatuses,
      (k, (tickets.map TicketM.status).count k) ∈ (tiReportsSummary tickets).statusCounts) ∧
    (∀ k ∈ ticketUrgencies,
      (k, (tickets.map TicketM.urgency).count k) ∈ (tiReportsSummary tickets).urgencyCounts) ∧
    (∀ k ∈ ticketTypes,
      (k, (tickets.map TicketM.ticketType).count k) ∈ (tiReportsSummary tickets).typeCounts) ∧
    ((tiReportsSummary tickets).statusCounts.map Prod.snd).sum =
      (tiReportsSummary tickets).totalTickets ∧
    (tiReportsSummary tickets).resolvedCount = (tickets.map TicketM.status).count "resolved" ∧
    (tiReportsSummary tickets).pendingCount =
      (tiReportsSummary tickets).totalTickets - (tiReportsSummary tickets).resolvedCount := by
  refine ⟨?_, ?_, ?_, ?_, ?_, ?_⟩
  · intro k hk
    exact countMap_mem_of_mem_keys ticketStatuses (tickets.map TicketM.status) k hk
  · intro k hk
    exact countMap_mem_of_mem_keys ticketUrgencies (tickets.map TicketM.urgency) k hk
  · intro k hk
    exact countMap_mem_of_mem_keys ticketTypes (tickets.map TicketM.ticketType) k hk
  · have h := sum_countMap ticketStatuses (tickets.map TicketM.status) (by decide)
    simpa [tiReportsSummary] using h
  · rfl
  · rfl

/-- Witness for C8: on a concrete two-ticket list (one resolved, one new) the
resolved status appears with count 1, the counts sum to 2, and one ticket is
pending. -/
theorem c8_reports_aggregation_witness :
    ("resolved",
        ([newTicket 1 "A" "d" ⟨"u", "", "", false, []⟩ "normal" "incident",
          { newTicket 2 "B" "d" ⟨"u", "", "", false, []⟩ "high" "request" with
              status := "resolved" }].map TicketM.status).count "resolved") ∈
      (tiReportsSummary
        [newTicket 1 "A" "d" ⟨"u", "", "", false, []⟩ "normal" "incident",
         { newTicket 2 "B" "d" ⟨"u", "", "", false, []⟩ "high" "request" with
             status := "resolved" }]).statusCounts ∧
    ((tiReportsSummary
        [newTicket 1 "A" "d" ⟨"u", "", "", false, []⟩ "normal" "incident",
         { newTicket 2 "B" "d" ⟨"u", "", "", false, []⟩ "high" "request" with
             status := "resolved" }]).statusCounts.map Prod.snd).sum = 2 ∧
    (tiReportsSummary
        [newTicket 1 "A" "d" ⟨"u", "", "", false, []⟩ "normal" "incident",
         { newTicket 2 "B" "d" ⟨"u", "", "", false, []⟩ "high" "request" with
             status := "resolved" }]).pendingCount = 1 := by
  have h := c8_reports_aggregation
    [newTicket 1 "A" "d" ⟨"u", "", "", false, []⟩ "normal" "incident",
     { newTicket 2 "B" "d" ⟨"u", "", "", false, []⟩ "high" "request" with
         status := "resolved" }]
  refine ⟨h.1 "resolved" (by decide), ?_, ?_⟩
  · rw [h.2.2.2.1]
    rfl
  · rw [h.2.2.2.2.2, h.2.2.2.2.1]
    rfl

/-- A list whose first two characters are five-five has "55" as a prefix. -/
lemma take2_prefix {l : List Char} (h : l.take 2 = ['5', '5']) :
    (['5', '5'] : List Char) <+: l :=
  ⟨l.drop 2, by rw [← h]; exact l.take_append_drop 2⟩

/-- A list with "55" as a prefix has five-five as its first two characters. -/
lemma prefix_take2 {l : List Char} (h : (['5', '5'] : List Char) <+: l) :
    l.take 2 = ['5', '5'] := by
  obtain ⟨tail, htail⟩ := h
  rw [← htail]
  rfl

/-- A character list starts with "55" exactly when its first two characters
are the digit five twice. -/
lemma prefix55_iff (l : List Char) :
    ("55".toList.isPrefixOf l = true) ↔ l.take 2 = ['5', '5'] := by
  rw [List.isPrefixOf_iff_prefix]
  exact ⟨fun h => prefix_take2 h, fun h => take2_prefix h⟩

/-- Everything in the adjusted digit string is a decimal digit: the base list
is a digit filter, trimming keeps that, and the prefixed country code is made
of digits. -/
lemma adjustedDigits_all_digits (value : String) :
    (adjustedDigits value).all isRegexDigit = true := by
  rw [List.all_eq_true]
  intro c hc
  unfold adjustedDigits at hc
  dsimp only at hc
  have hdig : ∀ d : Char, d ∈ value.toList.filter isRegexDigit → isRegexDigit d = true :=
    fun d hd => (List.mem_filter.mp hd).2
  have hdrop : ∀ d : Char, d ∈ (value.toList.filter isRegexDigit).drop 2 →
      isRegexDigit d = true :=
    fun d hd => hdig d (List.mem_of_mem_drop hd)
  have h55 : ∀ d : Char, d ∈ "55".toList → isRegexDigit d = true := by decide
  split at hc <;> split at hc <;>
    first
    | exact (List.mem_append.mp hc).elim (h55 c) (hdrop c)
    | exact (List.mem_append.mp hc).elim (h55 c) (hdig c)
    | exact hdrop c hc
    | exact hdig c hc

/-- Models `normalize_phone_number` at the default country code, restated over the
named adjusted digit string (pure zeta-reduction of the definition). -/
lemma normalizePhoneNumber_eq (value : String) :
    normalizePhoneNumber value "55" =
      if value == "" then .error "Telefone não pode ficar vazio."
      else if (value.toList.filter isRegexDigit).isEmpty then
        .error "Telefone deve conter dígitos."
      else if !((adjustedDigits value).length == 12 ||
          (adjustedDigits value).length == 13) then
        .error "Telefone precisa ter o código internacional (ex: 55149988208134)."
      else if !("55".toList.isPrefixOf (adjustedDigits value)) then
        .error "Telefone deve começar com o código internacional (ex: 55...)."
      else .ok (String.mk (adjustedDigits value)) := rfl

/-- The error conditions of `normalize_phone_number`, read off its branch
structure. -/
lemma normalizePhoneNumber_error_iff (value : String) :
    (∃ e, normalizePhoneNumber value "55" = .error e) ↔
      (value = "" ∨ value.toList.filter isRegexDigit = [] ∨
        ((adjustedDigits value).length ≠ 12 ∧ (adjustedDigits value).length ≠ 13) ∨
        (adjustedDigits value).take 2 ≠ ['5', '5']) := by
  rw [normalizePhoneNumber_eq]
  by_cases h1 : value = ""
  · rw [if_pos (by simpa using h1)]
    exact iff_of_true ⟨_, rfl⟩ (Or.inl h1)
  · rw [if_neg (by simpa using h1)]
    by_cases h2 : value.toList.filter isRegexDigit = []
    · rw [if_pos (by simpa [List.isEmpty_iff] using h2)]
      exact iff_of_true ⟨_, rfl⟩ (Or.inr (Or.inl h2))
    · rw [if_neg (by simpa [List.isEmpty_iff] using h2)]
      by_cases h3 : (adjustedDigits value).length = 12 ∨ (adjustedDigits value).length = 13
      · have hlenb : ((adjustedDigits value).length == 12 ||
            (adjustedDigits value).length == 13) = true := by
          rcases h3 with h | h <;> simp [h]
        rw [if_neg (by simp [hlenb])]
        by_cases h4 : (adjustedDigits value).take 2 = ['5', '5']
        · rw [if_neg (by simp [List.isPrefixOf_iff_prefix]; exact take2_prefix h4)]
          refine iff_of_false ?_ ?_
          · rintro ⟨e, he⟩
            exact Except.noConfusion he
          · rintro (h | h | ⟨ha, hb⟩ | h)
            · exact h1 h
            · exact h2 h
            · rcases h3 with h3 | h3
              · exact ha h3
              · exact hb h3
            · exact h h4
        · rw [if_pos ?_]
          · exact iff_of_true ⟨_, rfl⟩ (Or.inr (Or.inr (Or.inr h4)))
          · rw [Bool.not_eq_true', Bool.eq_false_iff]
            intro hco
            rw [List.isPrefixOf_iff_prefix] at hco
            exact h4 (prefix_take2 hco)
      · obtain ⟨h3a, h3b⟩ := not_or.mp h3
        have hlenb : ((adjustedDigits value).length == 12 ||
            (adjustedDigits value).length == 13) = false := by
          simp [h3a, h3b]
        rw [if_pos (by simp [hlenb])]
        exact iff_of_true ⟨_, rfl⟩ (Or.inr (Or.inr (Or.inl ⟨h3a, h3b⟩)))

/-- On success `normalize_phone_number` hands back exactly the adjusted digit
string, which passed the length and country-code checks. -/
lemma normalizePhoneNumber_ok (value : String) (s : String)
    (h : normalizePhoneNumber value "55" = .ok s) :
    s.data = adjustedDigits value ∧
    ((adjustedDigits value).length = 12 ∨ (adjustedDigits value).length = 13) ∧
    (adjustedDigits value).take 2 = ['5', '5'] := by
  rw [normalizePhoneNumber_eq] at h
  split at h
  · exact Except.noConfusion h
  · split at h
    · exact Except.noConfusion h
    · split at h
      · exact Except.noConfusion h
      · split at h
        · exact Except.noConfusion h
        · next hlen hpre =>
          cases h
          refine ⟨rfl, ?_, ?_⟩
          · have himp : ¬(adjustedDigits value).length = 12 →
                (adjustedDigits value).length = 13 := by
              simpa using hlen
            by_cases h12 : (adjustedDigits value).length = 12
            · exact Or.inl h12
            · exact Or.inr (himp h12)
          · have hp : (['5', '5'] : List Char) <+: adjustedDigits value := by
              simpa [List.isPrefixOf_iff_prefix] using hpre
            exact prefix_take2 hp

/-- C9: `normalize_phone_number` raises exactly when the input is empty, has
no digit, or its adjusted digit string (after the leading-00 strip and the
55-prefix for 10/11-digit numbers) has a length other than 12 or 13 or does
not start with 55; every success returns that 12- or 13-digit all-digit
string starting with 55, and `WhatsAppRecipient.clean` stores exactly such a
normalized number while keeping the raw input in `original_input`. -/
theorem c9_normalize_phone_number (value : String) :
    ((∃ e, normalizePhoneNumber value "55" = .error e) ↔
      (value = "" ∨ value.toList.filter isRegexDigit = [] ∨
        ((adjustedDigits value).length ≠ 12 ∧ (adjustedDigits value).length ≠ 13) ∨
        (adjustedDigits value).take 2 ≠ ['5', '5'])) ∧
    (∀ s, normalizePhoneNumber value "55" = .ok s →
      s.data = adjustedDigits value ∧
      (s.data.length = 12 ∨ s.data.length = 13) ∧
      s.data.take 2 = ['5', '5'] ∧
      s.data.all isRegexDigit = true) ∧
    (∀ r r2 : RecipientM, whatsAppRecipientClean r = .ok r2 →
      (r2.phoneNumber.data.length = 12 ∨ r2.phoneNumber.data.length = 13) ∧
      r2.phoneNumber.data.take 2 = ['5', '5'] ∧
      r2.phoneNumber.data.all isRegexDigit = true ∧
      r2.originalInput = r.phoneNumber) := by
  refine ⟨normalizePhoneNumber_error_iff value, ?_, ?_⟩
  · intro s h
    obtain ⟨hdata, hlen, htake⟩ := normalizePhoneNumber_ok value s h
    rw [hdata]
    exact ⟨rfl, hlen, htake, adjustedDigits_all_digits value⟩
  · intro r r2 h
    unfold whatsAppRecipientClean at h
    cases hn : normalizePhoneNumber r.phoneNumber "55" with
    | error e => rw [hn] at h; exact Except.noConfusion h
    | ok n =>
      rw [hn] at h
      dsimp only at h
      cases h
      obtain ⟨hdata, hlen, htake⟩ := normalizePhoneNumber_ok r.phoneNumber n hn
      rw [hdata]
      exact ⟨hlen, htake, adjustedDigits_all_digits r.phoneNumber, rfl⟩

/-- Witness for C9: the phone form input from the test suite normalizes to
5514998820134, a 55-prefixed number written with ten Arabic-Indic digits is
accepted as 12 Unicode digits, and an input of the wrong size is rejected. -/
theorem c9_normalize_phone_number_witness :
    normalizePhoneNumber "(14) 99882-0134" "55" = .ok "5514998820134" ∧
    ("5514998820134".data.length = 12 ∨ "5514998820134".data.length = 13) ∧
    "5514998820134".data.take 2 = ['5', '5'] ∧
    normalizePhoneNumber "55٠١٢٣٤٥٦٧٨٩" "55" = .ok "55٠١٢٣٤٥٦٧٨٩" ∧
    "55٠١٢٣٤٥٦٧٨٩".data.all isRegexDigit = true ∧
    (∃ e, normalizePhoneNumber "123" "55" = .error e) := by
  have hok : normalizePhoneNumber "(14) 99882-0134" "55" = .ok "5514998820134" := rfl
  obtain ⟨-, hlen, htake, -⟩ :=
    (c9_normalize_phone_number "(14) 99882-0134").2.1 "5514998820134" hok
  have hok2 : normalizePhoneNumber "55٠١٢٣٤٥٦٧٨٩" "55" = .ok "55٠١٢٣٤٥٦٧٨٩" := rfl
  obtain ⟨-, -, -, hall⟩ :=
    (c9_normalize_phone_number "55٠١٢٣٤٥٦٧٨٩").2.1 "55٠١٢٣٤٥٦٧٨٩" hok2
  refine ⟨hok, hlen, htake, hok2, hall, ?_⟩
  exact (c9_normalize_phone_number "123").1.mpr (by decide)

